import Mathlib

/-!
Verification of the trading-platform core against its specification.

Each Python module relevant to the checked properties is shallowly embedded
below: Decimal/float quantities become `ℚ`, finite dict state becomes
association lists, `datetime` values become rational epoch seconds (or `ℕ`
microseconds where the binary format fixes the resolution), and the few
places where the source consults a random number generator or a wall clock
take the drawn value as an explicit argument.  Definitions are organised by
source file; theorems follow at the end of the file.
-/

/-- Order/position side, shared by both codebases
(`OrderSide` in core/data_structures/order.py, `Side` in core/types). -/
inductive Side
  | BUY
  | SELL
deriving DecidableEq, Repr

/-- Python `max` on two rationals, written out so that it evaluates by
kernel reduction. -/
def qmax (a b : ℚ) : ℚ := if a ≤ b then b else a

/-- Python `min` on two rationals. -/
def qmin (a b : ℚ) : ℚ := if a ≤ b then a else b

/-- Floor of a rational as an integer (`Int.fdiv` of the reduced numerator
and denominator rounds toward −∞, which is the floor since denominators are
positive). -/
def qfloor (q : ℚ) : ℤ := Int.fdiv q.num q.den

/-! ## Risk gate — hft-trading-system/core/risk/risk_manager.py -/

namespace HTS

/-- Order status values of core/data_structures/order.py used by the risk path. -/
inductive OrderStatus
  | PENDING
  | SUBMITTED
  | PARTIAL_FILL
  | FILLED
  | CANCELLED
  | REJECTED
deriving DecidableEq, Repr

/-- Order fields consulted by the risk manager and the backtest submit path
(`Order` of core/data_structures/order.py; identification, timestamps and
algo metadata not read by these functions are elided).  `price = none`
is a market order. -/
structure Order where
  order_id : String
  symbol : String
  side : Side
  quantity : ℚ
  price : Option ℚ
  status : OrderStatus := OrderStatus.PENDING
deriving DecidableEq, Repr

/-- Fill fields consulted by `RiskManager.on_fill`. -/
structure Fill where
  order_id : String
  symbol : String
  side : Side
  quantity : ℚ
  price : ℚ
deriving DecidableEq, Repr

/-- `RiskLimits` of risk_manager.py, with that file's defaults. -/
structure RiskLimits where
  max_position_size : ℚ := 1000000
  max_total_exposure : ℚ := 10000000
  max_order_size : ℚ := 100000
  min_order_size : ℚ := 100
  max_daily_loss : ℚ := 50000
  max_daily_volume : ℚ := 50000000
  max_trades_per_day : ℕ := 10000
  max_position_concentration : ℚ := 3/10
  max_price_deviation : ℚ := 1/20
  max_orders_per_second : ℕ := 100
  max_cancels_per_second : ℕ := 200
  max_drawdown_pct : ℚ := 1/10
deriving DecidableEq, Repr

/-- `RiskMetrics` of risk_manager.py.  `last_rate_reset` is the wall-clock
instant (epoch seconds) of the last per-second counter reset. -/
structure RiskMetrics where
  positions : List (String × ℚ) := []
  total_exposure : ℚ := 0
  daily_pnl : ℚ := 0
  daily_volume : ℚ := 0
  daily_trades : ℕ := 0
  daily_high_equity : ℚ := 0
  orders_this_second : ℕ := 0
  cancels_this_second : ℕ := 0
  last_rate_reset : ℚ := 0
deriving DecidableEq, Repr

/-- Mutable state of a `RiskManager` instance (fills_today, logger and the
halt-reason string are elided; the halt reason does not influence control
flow). -/
structure RMState where
  limits : RiskLimits
  initial_capital : ℚ
  current_capital : ℚ
  metrics : RiskMetrics
  pending_orders : List (String × Order) := []
  is_trading_halted : Bool := false
  reference_prices : List (String × ℚ) := []
deriving DecidableEq, Repr

/-- Dict lookup on a string-keyed association list. -/
def lookupS {α : Type} (m : List (String × α)) (k : String) : Option α :=
  (m.find? (fun p => p.1 == k)).map (fun p => p.2)

/-- Dict assignment on a string-keyed association list. -/
def upsertS {α : Type} (m : List (String × α)) (k : String) (v : α) :
    List (String × α) :=
  if m.any (fun p => p.1 == k) then
    m.map (fun p => if p.1 == k then (k, v) else p)
  else
    m ++ [(k, v)]

/-- Signed order quantity (`order_delta` in `_check_position_limits`). -/
def order_delta (o : Order) : ℚ :=
  if o.side = Side.BUY then o.quantity else -o.quantity

/-- `_check_fat_finger`: with a limit price and a known reference price,
reject when `|price - ref| / ref > max_price_deviation`; market orders and
unknown references pass. -/
def check_fat_finger (s : RMState) (o : Order) : Bool :=
  match o.price with
  | none => true
  | some p =>
    match lookupS s.reference_prices o.symbol with
    | none => true
    | some ref =>
      if |p - ref| / ref > s.limits.max_price_deviation then false else true

/-- `_check_order_size`: quantity must lie in `[min_order_size, max_order_size]`. -/
def check_order_size (s : RMState) (o : Order) : Bool :=
  if o.quantity < s.limits.min_order_size then false
  else if o.quantity > s.limits.max_order_size then false
  else true

/-- Position in the order's symbol after the order (`new_position`). -/
def position_after (s : RMState) (o : Order) : ℚ :=
  (lookupS s.metrics.positions o.symbol).getD 0 + order_delta o

/-- Total exposure after the order (`new_total_exposure`); the notional uses
`order.price or 0`, so a market order contributes nothing. -/
def new_total_exposure (s : RMState) (o : Order) : ℚ :=
  s.metrics.total_exposure + |order_delta o * (o.price.getD 0)|

/-- `_check_position_limits`: single-symbol position limit, then total
exposure limit. -/
def check_position_limits (s : RMState) (o : Order) : Bool :=
  if |position_after s o| > s.limits.max_position_size then false
  else if new_total_exposure s o > s.limits.max_total_exposure then false
  else true

/-- `_trigger_circuit_breaker`: halt all trading. -/
def trigger_circuit_breaker (s : RMState) : RMState :=
  { s with is_trading_halted := true }

/-- `_check_daily_loss_limit`: on breach, trips the circuit breaker and rejects. -/
def check_daily_loss (s : RMState) : Bool × RMState :=
  if -s.metrics.daily_pnl > s.limits.max_daily_loss then
    (false, trigger_circuit_breaker s)
  else (true, s)

/-- `_check_daily_volume_limit`: projected daily volume (notional uses
`order.price or 0`), then the daily trade-count cap. -/
def check_daily_volume (s : RMState) (o : Order) : Bool :=
  if s.metrics.daily_volume + o.quantity * (o.price.getD 0) >
      s.limits.max_daily_volume then false
  else if s.metrics.daily_trades ≥ s.limits.max_trades_per_day then false
  else true

/-- `_check_rate_limits` at wall-clock instant `now`: reset the per-second
counters if a second has elapsed, reject at the cap, otherwise count this
order. -/
def check_rate_limits (now : ℚ) (s : RMState) : Bool × RMState :=
  let m := s.metrics
  let m :=
    if now - m.last_rate_reset ≥ 1 then
      { m with orders_this_second := 0, cancels_this_second := 0,
               last_rate_reset := now }
    else m
  if m.orders_this_second ≥ s.limits.max_orders_per_second then
    (false, { s with metrics := m })
  else
    (true, { s with metrics := { m with orders_this_second := m.orders_this_second + 1 } })

/-- `_check_concentration_limits`: zero total exposure passes; otherwise the
projected symbol concentration must not exceed the limit. -/
def check_concentration (s : RMState) (o : Order) : Bool :=
  if s.metrics.total_exposure = 0 then true
  else
    let p := o.price.getD 0
    let current_position_value := |(lookupS s.metrics.positions o.symbol).getD 0 * p|
    let order_value := o.quantity * p
    let concentration :=
      (current_position_value + order_value) / (s.metrics.total_exposure + order_value)
    if concentration > s.limits.max_position_concentration then false else true

/-- `_check_drawdown_limit`: drawdown from the daily high equity; trips the
breaker on breach. -/
def check_drawdown (s : RMState) : Bool × RMState :=
  if s.metrics.daily_high_equity = 0 then (true, s)
  else
    let drawdown :=
      (s.metrics.daily_high_equity - s.current_capital) / s.metrics.daily_high_equity
    if drawdown > s.limits.max_drawdown_pct then (false, trigger_circuit_breaker s)
    else (true, s)

/-- Rejection reason taxonomy of `pre_trade_check` (the source formats each
as a string naming the failed check). -/
inductive Reason
  | approved
  | tradingHalted
  | fatFinger
  | orderSize
  | positionLimit
  | dailyLoss
  | dailyVolume
  | rateLimit
  | concentration
  | drawdown
deriving DecidableEq, Repr

/-- On full approval the order is recorded in `pending_orders`. -/
def add_pending (s : RMState) (o : Order) : RMState :=
  { s with pending_orders := upsertS s.pending_orders o.order_id o }

/-- `pre_trade_check`: the eight checks of risk_manager.py in source order,
threading the mutated manager state; the first failure returns the
rejection.  The two stateful helpers are inlined: a passing
`_check_daily_loss_limit` leaves the state unchanged, so the later checks
read `s` directly, and `_check_drawdown_limit` runs on the state left by the
rate-limit check (the only earlier mutation on an approval path).  The
drawdown check approves immediately when the daily high equity is zero. -/
def pre_trade_check (now : ℚ) (s : RMState) (o : Order) :
    (Bool × Reason) × RMState :=
  if s.is_trading_halted then ((false, Reason.tradingHalted), s)
  else if check_fat_finger s o = false then ((false, Reason.fatFinger), s)
  else if check_order_size s o = false then ((false, Reason.orderSize), s)
  else if check_position_limits s o = false then ((false, Reason.positionLimit), s)
  else if -s.metrics.daily_pnl > s.limits.max_daily_loss then
    ((false, Reason.dailyLoss), trigger_circuit_breaker s)
  else if check_daily_volume s o = false then ((false, Reason.dailyVolume), s)
  else
    let r6 := check_rate_limits now s
    if r6.1 = false then ((false, Reason.rateLimit), r6.2)
    else if check_concentration r6.2 o = false then
      ((false, Reason.concentration), r6.2)
    else if r6.2.metrics.daily_high_equity = 0 then
      ((true, Reason.approved), add_pending r6.2 o)
    else if (r6.2.metrics.daily_high_equity - r6.2.current_capital) /
        r6.2.metrics.daily_high_equity > s.limits.max_drawdown_pct then
      ((false, Reason.drawdown), trigger_circuit_breaker r6.2)
    else ((true, Reason.approved), add_pending r6.2 o)

/-- `_recalculate_exposure`: total exposure from positions marked at the
reference prices. -/
def recalculate_exposure (s : RMState) : RMState :=
  { s with metrics :=
      { s.metrics with total_exposure :=
          (s.metrics.positions.map
            (fun p => |p.2 * ((lookupS s.reference_prices p.1).getD 0)|)).sum } }

/-- `on_fill`: position, daily counters, simplified P&L, high-water mark,
exposure recomputation, and removal from `pending_orders`. -/
def on_fill (s : RMState) (f : Fill) : RMState :=
  let position_delta := if f.side = Side.BUY then f.quantity else -f.quantity
  let current_position := (lookupS s.metrics.positions f.symbol).getD 0
  let notional := f.quantity * f.price
  let pnl_delta := if f.side = Side.BUY then -notional else notional
  let daily_pnl := s.metrics.daily_pnl + pnl_delta
  let current_capital := s.initial_capital + daily_pnl
  let m :=
    { s.metrics with
        positions := upsertS s.metrics.positions f.symbol (current_position + position_delta),
        daily_volume := s.metrics.daily_volume + notional,
        daily_trades := s.metrics.daily_trades + 1,
        daily_pnl := daily_pnl,
        daily_high_equity :=
          if current_capital > s.metrics.daily_high_equity then current_capital
          else s.metrics.daily_high_equity }
  let s := { s with metrics := m, current_capital := current_capital }
  let s := recalculate_exposure s
  { s with pending_orders := s.pending_orders.filter (fun p => p.1 != f.order_id) }

/-- `update_reference_price`. -/
def update_reference_price (s : RMState) (symbol : String) (price : ℚ) : RMState :=
  { s with reference_prices := upsertS s.reference_prices symbol price }

/-- `reset_daily_metrics`: advance the capital baseline, clear the daily
metrics and the circuit breaker.  This is the explicit operator-initiated
reset; nothing else clears the halt flag. -/
def reset_daily_metrics (s : RMState) : RMState :=
  { s with
      initial_capital := s.current_capital,
      metrics := { daily_high_equity := s.current_capital },
      is_trading_halted := false }

/-- Operations callable on a `RiskManager` between two points in time. -/
inductive RMOp
  | preCheck (now : ℚ) (o : Order)
  | onFill (f : Fill)
  | updRef (symbol : String) (price : ℚ)
  | resetDaily
deriving DecidableEq, Repr

/-- Whether an operation is the explicit daily reset. -/
def RMOp.isReset : RMOp → Bool
  | RMOp.resetDaily => true
  | _ => false

/-- Effect of one operation on the manager state. -/
def runOp (s : RMState) : RMOp → RMState
  | RMOp.preCheck now o => (pre_trade_check now s o).2
  | RMOp.onFill f => on_fill s f
  | RMOp.updRef symbol price => update_reference_price s symbol price
  | RMOp.resetDaily => reset_daily_metrics s

/-- Effect of a sequence of operations. -/
def runOps (s : RMState) (ops : List RMOp) : RMState :=
  ops.foldl runOp s

/-- Projection of the manager state onto the components named by the
rejection contract: positions, daily volume/trade-count/P&L, and the
pending-order table (the per-second rate window and the breaker flag are
deliberately outside this projection). -/
def core_state (s : RMState) :
    List (String × ℚ) × ℚ × ℕ × ℚ × List (String × Order) :=
  (s.metrics.positions, s.metrics.daily_volume, s.metrics.daily_trades,
   s.metrics.daily_pnl, s.pending_orders)

/-- `BacktestEngine.submit_order` of backtesting/backtest_engine.py, risk
path only: a rejected order is stamped REJECTED and not activated; an
approved order is stamped SUBMITTED (latency timestamping elided — it does
not feed any check). -/
def submit_order (now : ℚ) (s : RMState) (o : Order) :
    Bool × Order × RMState :=
  let r := pre_trade_check now s o
  if r.1.1 then (true, { o with status := OrderStatus.SUBMITTED }, r.2)
  else (false, { o with status := OrderStatus.REJECTED }, r.2)

end HTS

/-! ## Tick store — hft-trading-system/core/database/timeseries_db.py -/

namespace TSDB

/-- Trade tick as consumed by `query_ohlcv` (`Tick` of market_data.py,
reduced to the fields the aggregation reads): `ts` is the epoch timestamp
in seconds, as produced by `timestamp.timestamp()`. -/
structure Tick where
  ts : ℚ
  price : ℚ
  qty : ℚ
deriving DecidableEq, Repr

/-- `OHLCV` bar of market_data.py (symbol elided; `open` is a Lean keyword,
hence `open_p`). -/
structure OHLCV where
  timestamp : ℚ
  open_p : ℚ
  high : ℚ
  low : ℚ
  close : ℚ
  volume : ℚ
  num_trades : ℕ
  vwap : ℚ := 0
deriving DecidableEq, Repr

/-- `_floor_timestamp`: `(epoch // interval_seconds) * interval_seconds`. -/
def floor_timestamp (ts : ℚ) (interval_seconds : ℤ) : ℚ :=
  ((qfloor (ts / (interval_seconds : ℚ))) : ℚ) * (interval_seconds : ℚ)

/-- New bar opened at `bar_start` from its first tick. -/
def mkBar (bar_start : ℚ) (t : Tick) : OHLCV :=
  { timestamp := bar_start, open_p := t.price, high := t.price, low := t.price,
    close := t.price, volume := t.qty, num_trades := 1 }

/-- Fold a further tick of the same interval into the current bar. -/
def addTick (b : OHLCV) (t : Tick) : OHLCV :=
  { b with high := qmax b.high t.price, low := qmin b.low t.price,
           close := t.price, volume := b.volume + t.qty,
           num_trades := b.num_trades + 1 }

/-- One step of the aggregation loop of `query_ohlcv`: state is
(finished bars, current_bar_start, current_bar). -/
def ohlcvStep (interval_seconds : ℤ) :
    List OHLCV × ℚ × Option OHLCV → Tick → List OHLCV × ℚ × Option OHLCV
  | (bars, cur_start, cur_bar), t =>
    let bar_start := floor_timestamp t.ts interval_seconds
    if bar_start ≠ cur_start then
      (bars ++ cur_bar.toList, bar_start, some (mkBar bar_start t))
    else
      match cur_bar with
      | none => (bars, cur_start, some (mkBar bar_start t))
      | some b => (bars, cur_start, some (addTick b t))

/-- `query_ohlcv` on an already-loaded tick list: aggregate into bars whose
edges are floored timestamps, then set every bar's `vwap` to
`(open + high + low + close) / 4` — exactly as the source does. -/
def query_ohlcv (ticks : List Tick) (interval_seconds : ℤ) : List OHLCV :=
  match ticks with
  | [] => []
  | t0 :: _ =>
    let init : List OHLCV × ℚ × Option OHLCV :=
      ([], floor_timestamp t0.ts interval_seconds, none)
    let r := ticks.foldl (ohlcvStep interval_seconds) init
    let bars := r.1 ++ r.2.2.toList
    bars.map (fun b =>
      { b with vwap := (b.open_p + b.high + b.low + b.close) / 4 })

/-- Modelled from the spec: the VWAP a bar is required to carry — the
size-weighted mean trade price of the trades inside the bar ("VWAP field on
the bar is defined as the size-weighted mean trade price within the bar"). -/
def specVWAP (ticks : List Tick) : ℚ :=
  (ticks.map (fun t => t.price * t.qty)).sum / (ticks.map (fun t => t.qty)).sum

/-- Tick record at the resolution fixed by the 25-byte binary format of
`_serialize_tick`: `u64` microsecond timestamp, two `f64` fields carried as
their 64-bit patterns (`struct.pack('d', ·)` stores and reloads the
bit pattern unchanged), and the aggressor side string. -/
structure TickRec where
  timestamp_us : ℕ
  priceBits : ℕ
  qtyBits : ℕ
  side : String
deriving DecidableEq, Repr

/-- Little-endian encoding of `n` into `k` bytes. -/
def toLE : ℕ → ℕ → List ℕ
  | 0, _ => []
  | k + 1, n => n % 256 :: toLE k (n / 256)

/-- Little-endian decoding. -/
def fromLE : List ℕ → ℕ
  | [] => 0
  | b :: bs => b + 256 * fromLE bs

/-- `_serialize_tick`: `struct.pack('Qddb', timestamp_us, price, quantity,
side_byte)` with `side_byte = 0` for BUY and `1` otherwise — 25 bytes. -/
def serialize_tick (t : TickRec) : List ℕ :=
  toLE 8 t.timestamp_us ++ toLE 8 t.priceBits ++ toLE 8 t.qtyBits ++
    [if t.side == "BUY" then 0 else 1]

/-- `_deserialize_tick`: `struct.unpack('Qddb', data)`, side 0 mapped back
to BUY and anything else to SELL; fails unless the record is 25 bytes. -/
def deserialize_tick (data : List ℕ) : Option TickRec :=
  if data.length = 25 then
    some { timestamp_us := fromLE (data.take 8),
           priceBits := fromLE ((data.drop 8).take 8),
           qtyBits := fromLE ((data.drop 16).take 8),
           side := if (data.drop 24).headD 1 = 0 then "BUY" else "SELL" }
  else none

end TSDB

/-! ## Order book — hft_system/core/orderbook.py -/

namespace HSOB

/-- `OrderBookLevel` of core/types (order count elided: the book stores only
price → size). -/
structure Level where
  price : ℚ
  size : ℚ
deriving DecidableEq, Repr

/-- `OrderBookSnapshot` fields read by `update_snapshot` (instrument, venue
and timestamp elided). -/
structure Snapshot where
  bids : List Level
  asks : List Level
  sequence_number : ℤ := 0
deriving DecidableEq, Repr

/-- `OrderBookUpdate` of orderbook.py. -/
structure BookUpdate where
  side : Side
  price : ℚ
  size : ℚ
  action : String
deriving DecidableEq, Repr

/-- `OrderBook` state: the two price → size dicts (as association lists) and
the sequence number; the cached sorted price vectors are recomputed views of
the dict keys and are represented by the derived functions below. -/
structure Book where
  bids : List (ℚ × ℚ) := []
  asks : List (ℚ × ℚ) := []
  sequence_number : ℤ := 0
  update_count : ℕ := 0
deriving DecidableEq, Repr

/-- Dict lookup on a rational-keyed association list. -/
def lookupQ (m : List (ℚ × ℚ)) (k : ℚ) : Option ℚ :=
  (m.find? (fun p => p.1 == k)).map (fun p => p.2)

/-- Dict assignment on a rational-keyed association list. -/
def upsertQ (m : List (ℚ × ℚ)) (k v : ℚ) : List (ℚ × ℚ) :=
  if m.any (fun p => p.1 == k) then
    m.map (fun p => if p.1 == k then (k, v) else p)
  else
    m ++ [(k, v)]

/-- Dict deletion (`pop(price, None)`). -/
def removeQ (m : List (ℚ × ℚ)) (k : ℚ) : List (ℚ × ℚ) :=
  m.filter (fun p => p.1 != k)

/-- Maximum of a rational list (head of the descending-sorted `bid_prices`). -/
def maxQ? : List ℚ → Option ℚ
  | [] => none
  | x :: xs =>
    match maxQ? xs with
    | none => some x
    | some m => some (qmax x m)

/-- Minimum of a rational list (head of the ascending-sorted `ask_prices`). -/
def minQ? : List ℚ → Option ℚ
  | [] => none
  | x :: xs =>
    match minQ? xs with
    | none => some x
    | some m => some (qmin x m)

/-- `update_snapshot`: clear both sides, then store every level of positive
size; refresh sequence number and update count.  No validation of any kind
is performed on the snapshot. -/
def update_snapshot (b : Book) (snap : Snapshot) : Book :=
  let bids := (snap.bids.filter (fun l => 0 < l.size)).foldl
    (fun m l => upsertQ m l.price l.size) []
  let asks := (snap.asks.filter (fun l => 0 < l.size)).foldl
    (fun m l => upsertQ m l.price l.size) []
  { bids := bids, asks := asks,
    sequence_number := snap.sequence_number,
    update_count := b.update_count + 1 }

/-- `update_incremental`: upsert or delete one level on one side; again no
validation. -/
def update_incremental (b : Book) (u : BookUpdate) : Book :=
  let b :=
    if u.side = Side.BUY then
      if u.action == "DELETE" || u.size == 0 then
        { b with bids := removeQ b.bids u.price }
      else
        { b with bids := upsertQ b.bids u.price u.size }
    else
      if u.action == "DELETE" || u.size == 0 then
        { b with asks := removeQ b.asks u.price }
      else
        { b with asks := upsertQ b.asks u.price u.size }
  { b with sequence_number := b.sequence_number + 1,
           update_count := b.update_count + 1 }

/-- `get_best_bid`, price component: head of the descending-sorted bid
prices, i.e. the maximal bid price. -/
def best_bid (b : Book) : Option ℚ :=
  maxQ? (b.bids.map (fun p => p.1))

/-- `get_best_ask`, price component: minimal ask price. -/
def best_ask (b : Book) : Option ℚ :=
  minQ? (b.asks.map (fun p => p.1))

/-- `get_best_bid` with its size (`OrderBookLevel(price, self.bids[price])`). -/
def best_bid_level (b : Book) : Option (ℚ × ℚ) :=
  match best_bid b with
  | none => none
  | some p => some (p, (lookupQ b.bids p).getD 0)

/-- `get_best_ask` with its size. -/
def best_ask_level (b : Book) : Option (ℚ × ℚ) :=
  match best_ask b with
  | none => none
  | some p => some (p, (lookupQ b.asks p).getD 0)

/-- `get_mid_price`. -/
def get_mid_price (b : Book) : Option ℚ :=
  match best_bid b, best_ask b with
  | some bid, some ask => some ((bid + ask) / 2)
  | _, _ => none

/-- `get_spread`. -/
def get_spread (b : Book) : Option ℚ :=
  match best_bid b, best_ask b with
  | some bid, some ask => some (ask - bid)
  | _, _ => none

/-- `get_microprice`:
`(ask_size * bid_price + bid_size * ask_price) / (bid_size + ask_size)`
over the top of book, defined when both sides exist and the sizes sum to a
positive total. -/
def get_microprice (b : Book) : Option ℚ :=
  match best_bid_level b, best_ask_level b with
  | some bid, some ask =>
    let total_size := bid.2 + ask.2
    if 0 < total_size then
      some ((ask.2 * bid.1 + bid.2 * ask.1) / total_size)
    else none
  | _, _ => none

/-- `get_order_book_imbalance`:
`(Σ bid sizes − Σ ask sizes) / (Σ bid sizes + Σ ask sizes)`, `0` on an empty
book. -/
def get_order_book_imbalance (b : Book) : ℚ :=
  let bid_liq := (b.bids.map (fun p => p.2)).sum
  let ask_liq := (b.asks.map (fun p => p.2)).sum
  let total_liq := bid_liq + ask_liq
  if total_liq = 0 then 0 else (bid_liq - ask_liq) / total_liq

end HSOB

/-! ## L2 book — hft-trading-system/core/data_structures/market_data.py -/

namespace MDOB

/-- `PriceLevel` of market_data.py. -/
structure PriceLevel where
  price : ℚ
  quantity : ℚ
  num_orders : ℕ := 1
deriving DecidableEq, Repr

/-- `OrderBook` of market_data.py: explicit sorted level lists, bids
descending and asks ascending (symbol, timestamp and sequence number
elided — no metric reads them). -/
structure Book where
  bids : List PriceLevel := []
  asks : List PriceLevel := []
deriving DecidableEq, Repr

/-- Insertion at an index (`list.insert(idx, level)`). -/
def insertAt {α : Type} : ℕ → α → List α → List α
  | _, a, [] => [a]
  | 0, a, l => a :: l
  | n + 1, a, x :: l => x :: insertAt n a l

/-- `_update_level`: replace the level at an existing price, else insert at
the `bisect_left` position of the side's sort order (on a sorted side this
index is the number of elements strictly preceding the new price). -/
def update_level (side : List PriceLevel) (l : PriceLevel) (reverse : Bool) :
    List PriceLevel :=
  if side.any (fun e => e.price == l.price) then
    side.map (fun e => if e.price == l.price then l else e)
  else
    let idx :=
      if reverse then side.countP (fun e => decide (l.price < e.price))
      else side.countP (fun e => decide (e.price < l.price))
    insertAt idx l side

/-- `_remove_level`. -/
def remove_level (side : List PriceLevel) (price : ℚ) : List PriceLevel :=
  side.filter (fun e => e.price != price)

/-- `update_bid`: zero quantity removes the level, otherwise upsert keeping
the descending order. -/
def update_bid (b : Book) (price quantity : ℚ) (num_orders : ℕ := 1) : Book :=
  if quantity = 0 then { b with bids := remove_level b.bids price }
  else { b with bids := update_level b.bids ⟨price, quantity, num_orders⟩ true }

/-- `update_ask`. -/
def update_ask (b : Book) (price quantity : ℚ) (num_orders : ℕ := 1) : Book :=
  if quantity = 0 then { b with asks := remove_level b.asks price }
  else { b with asks := update_level b.asks ⟨price, quantity, num_orders⟩ false }

/-- `best_bid` property: first element of the descending bid list. -/
def best_bid (b : Book) : Option PriceLevel := b.bids.head?

/-- `best_ask` property. -/
def best_ask (b : Book) : Option PriceLevel := b.asks.head?

/-- `spread` property (`0.0` when either side is empty). -/
def spread (b : Book) : ℚ :=
  match best_bid b, best_ask b with
  | some bid, some ask => ask.price - bid.price
  | _, _ => 0

/-- `mid_price` property (`0.0` when either side is empty). -/
def mid_price (b : Book) : ℚ :=
  match best_bid b, best_ask b with
  | some bid, some ask => (bid.price + ask.price) / 2
  | _, _ => 0

/-- View of this book's contents as the dict-backed book of
hft_system/core/orderbook.py, for applying that file's derived metrics to
the same state. -/
def toHSOB (b : Book) : HSOB.Book :=
  { bids := b.bids.map (fun l => (l.price, l.quantity)),
    asks := b.asks.map (fun l => (l.price, l.quantity)) }

end MDOB

/-! ## Trailing stops — hft_system/execution/trailing_stop.py -/

namespace TStop

/-- `TrailingType`. -/
inductive TrailingType
  | FIXED_DISTANCE
  | PERCENTAGE
  | ATR_BASED
  | VOLATILITY_ADJUSTED
  | STEP_TRAIL
deriving DecidableEq, Repr

/-- `TrailingMode`. -/
inductive TrailingMode
  | IMMEDIATE
  | PROFIT_THRESHOLD
  | BREAKEVEN_PLUS
deriving DecidableEq, Repr

/-- `TrailingStopConfig` with the source defaults (time-based and
ATR-multiplier fields elided: `_calculate_new_stop` never reads them). -/
structure Config where
  trailing_type : TrailingType := TrailingType.PERCENTAGE
  trailing_mode : TrailingMode := TrailingMode.IMMEDIATE
  trailing_distance : ℚ := 1/50
  trailing_distance_pips : ℚ := 1/10
  activation_profit_pct : ℚ := 1/100
  breakeven_buffer_pct : ℚ := 1/200
  step_size : ℚ := 1/100
  step_interval : ℚ := 1/50
  min_profit_lock : ℚ := 1/200
  max_trailing_distance : ℚ := 1/20
deriving DecidableEq, Repr

/-- `TrailingStop` record (identification, timestamps and the stop-order
handle elided). -/
structure TStopRec where
  side : Side
  entry_price : ℚ
  quantity : ℚ
  current_stop_price : ℚ
  highest_price : ℚ
  lowest_price : ℚ
  config : Config
  is_active : Bool := false
  adjustment_count : ℕ := 0
  max_profit_pct : ℚ := 0
  current_profit_pct : ℚ := 0
  protected_profit_pct : ℚ := 0
deriving DecidableEq, Repr

/-- Python `int(...)` applied to a rational: truncation toward zero. -/
def int_trunc (q : ℚ) : ℤ :=
  Int.tdiv q.num q.den

/-- `add_position`: initial stop at `entry * (1 ∓ trailing_distance)`,
extremum seeded with the entry price, active immediately only in
IMMEDIATE mode. -/
def mk_trailing_stop (side : Side) (entry quantity : ℚ) (c : Config) : TStopRec :=
  if side = Side.BUY then
    { side := side, entry_price := entry, quantity := quantity,
      current_stop_price := entry * (1 - c.trailing_distance),
      highest_price := entry, lowest_price := 0, config := c,
      is_active := c.trailing_mode = TrailingMode.IMMEDIATE }
  else
    { side := side, entry_price := entry, quantity := quantity,
      current_stop_price := entry * (1 + c.trailing_distance),
      highest_price := 0, lowest_price := entry, config := c,
      is_active := c.trailing_mode = TrailingMode.IMMEDIATE }

/-- `_check_activation`. -/
def check_activation (ts : TStopRec) (p : ℚ) : Bool :=
  match ts.config.trailing_mode with
  | TrailingMode.IMMEDIATE => true
  | TrailingMode.PROFIT_THRESHOLD =>
    let profit :=
      if ts.side = Side.BUY then (p - ts.entry_price) / ts.entry_price
      else (ts.entry_price - p) / ts.entry_price
    decide (profit ≥ ts.config.activation_profit_pct)
  | TrailingMode.BREAKEVEN_PLUS =>
    if ts.side = Side.BUY then
      decide (p ≥ ts.entry_price * (1 + ts.config.breakeven_buffer_pct))
    else
      decide (p ≤ ts.entry_price * (1 - ts.config.breakeven_buffer_pct))

/-- `_calculate_new_stop`: candidate stop per trailing type.  ATR_BASED has
no matching branch in the source and falls through to the percentage-based
default at the end of the function. -/
def calculate_new_stop (ts : TStopRec) : ℚ :=
  let c := ts.config
  match c.trailing_type with
  | TrailingType.FIXED_DISTANCE =>
    if ts.side = Side.BUY then ts.highest_price - c.trailing_distance_pips
    else ts.lowest_price + c.trailing_distance_pips
  | TrailingType.PERCENTAGE =>
    if ts.side = Side.BUY then ts.highest_price * (1 - c.trailing_distance)
    else ts.lowest_price * (1 + c.trailing_distance)
  | TrailingType.STEP_TRAIL =>
    if ts.side = Side.BUY then
      let profit_pct := (ts.highest_price - ts.entry_price) / ts.entry_price
      let steps := int_trunc (profit_pct / c.step_interval)
      ts.entry_price + (steps : ℚ) * c.step_size * ts.entry_price
    else
      let profit_pct := (ts.entry_price - ts.lowest_price) / ts.entry_price
      let steps := int_trunc (profit_pct / c.step_interval)
      ts.entry_price - (steps : ℚ) * c.step_size * ts.entry_price
  | TrailingType.VOLATILITY_ADJUSTED =>
    let base_distance := c.trailing_distance
    let profit_pct := |ts.current_profit_pct|
    let adjusted_distance :=
      if profit_pct > 1/20 then base_distance * (7/10)
      else if profit_pct > 1/50 then base_distance * (17/20)
      else base_distance
    let adjusted_distance := qmin adjusted_distance c.max_trailing_distance
    if ts.side = Side.BUY then ts.highest_price * (1 - adjusted_distance)
    else ts.lowest_price * (1 + adjusted_distance)
  | TrailingType.ATR_BASED =>
    if ts.side = Side.BUY then ts.highest_price * (1 - c.trailing_distance)
    else ts.lowest_price * (1 + c.trailing_distance)

/-- `_adjust_trailing_stop`: move the stop only in the tightening direction
(long: up, short: down); on a move, bump the adjustment count and the
protected-profit watermark.  Returns the record and whether it moved. -/
def adjust_trailing_stop (ts : TStopRec) : TStopRec × Bool :=
  let new_stop := calculate_new_stop ts
  if ts.side = Side.BUY then
    if new_stop > ts.current_stop_price then
      let protected_profit := (new_stop - ts.entry_price) / ts.entry_price
      ({ ts with current_stop_price := new_stop,
                 adjustment_count := ts.adjustment_count + 1,
                 protected_profit_pct :=
                   qmax ts.protected_profit_pct protected_profit }, true)
    else (ts, false)
  else
    if new_stop < ts.current_stop_price then
      let protected_profit := (ts.entry_price - new_stop) / ts.entry_price
      ({ ts with current_stop_price := new_stop,
                 adjustment_count := ts.adjustment_count + 1,
                 protected_profit_pct :=
                   qmax ts.protected_profit_pct protected_profit }, true)
    else (ts, false)

/-- `_check_stop_triggered`: only an active stop triggers; long triggers at
or below the stop, short at or above. -/
def check_stop_triggered (ts : TStopRec) (p : ℚ) : Bool :=
  if ts.is_active = false then false
  else if ts.side = Side.BUY then decide (p ≤ ts.current_stop_price)
  else decide (p ≥ ts.current_stop_price)

/-- The first half of `update_price`: profit bookkeeping, activation check
and extremum update (none of which touches the stop price or the side). -/
def pre_adjust_state (ts : TStopRec) (p : ℚ) : TStopRec :=
  let profit_pct :=
    if ts.side = Side.BUY then (p - ts.entry_price) / ts.entry_price
    else (ts.entry_price - p) / ts.entry_price
  let ts := { ts with current_profit_pct := profit_pct,
                      max_profit_pct := qmax ts.max_profit_pct profit_pct }
  let ts :=
    if ts.is_active = false ∧ check_activation ts p then
      { ts with is_active := true }
    else ts
  if ts.side = Side.BUY then
    if p > ts.highest_price then { ts with highest_price := p } else ts
  else
    if ts.lowest_price = 0 ∨ p < ts.lowest_price then
      { ts with lowest_price := p }
    else ts

/-- `update_price` for one tick: profit bookkeeping, activation check,
extremum update, guarded adjustment, then (when no adjustment happened this
tick — the source returns early on adjustment) the trigger check.  Returns
the updated record and whether the stop triggered (on trigger, the manager
emits a MARKET close and deletes the record). -/
def update_price (ts : TStopRec) (p : ℚ) : TStopRec × Bool :=
  let ts := pre_adjust_state ts p
  if ts.is_active then
    let r := adjust_trailing_stop ts
    if r.2 then (r.1, false)
    else (r.1, check_stop_triggered r.1 p)
  else (ts, check_stop_triggered ts p)

/-- Record after a whole sequence of price updates. -/
def run_updates (ts : TStopRec) (ps : List ℚ) : TStopRec :=
  ps.foldl (fun t p => (update_price t p).1) ts

end TStop

/-! ## Backtest fill application — hft_system/backtesting/engine.py -/

namespace BTE

/-- `OrderStatus` of hft_system/core/types. -/
inductive OrderStatus
  | PENDING_NEW
  | NEW
  | PARTIALLY_FILLED
  | FILLED
  | PENDING_CANCEL
  | CANCELED
  | REJECTED
  | EXPIRED
deriving DecidableEq, Repr

/-- Order fields read and written by `_execute_order` (identity, venue and
timestamps elided; `is_market` stands for `order_type == MARKET`). -/
structure Order where
  quantity : ℚ
  filled_quantity : ℚ := 0
  avg_fill_price : ℚ := 0
  side : Side
  is_market : Bool := true
  status : OrderStatus := OrderStatus.PENDING_NEW
deriving DecidableEq, Repr

/-- The `BacktestConfig` switches consulted by `_execute_order`. -/
structure Config where
  enable_partial_fills : Bool := true
  enable_market_impact : Bool := true
  enable_slippage : Bool := true
  enable_fees : Bool := true
deriving DecidableEq, Repr

/-- Per-execution environment of `_execute_order`: the order book's total
opposite-side liquidity and base price, the venue fee, and oracles for the
parts the source obtains from floats and `np.random` — the partial-fill coin
flip (`np.random.random() < partial_fill_probability`) and the already
computed impact and slippage amounts. -/
structure ExecEnv where
  has_order_book : Bool := true
  base_price : ℚ
  tick_size : ℚ := 1/100
  avail_liquidity : ℚ
  partial_draw : Bool := false
  impact : ℚ := 0
  slippage : ℚ := 0
  taker_fee : ℚ := 0
deriving DecidableEq, Repr

/-- `BacktestOrderBook.check_liquidity`: full liquidity without a book,
otherwise compare the opposite side's total size with the order quantity. -/
def check_liquidity (env : ExecEnv) (o : Order) : Bool × ℚ :=
  if env.has_order_book = false then (true, o.quantity)
  else (decide (env.avail_liquidity ≥ o.quantity),
        qmin env.avail_liquidity o.quantity)

/-- `BacktestOrderBook.get_execution_price`: base price plus impact and
slippage in the adverse direction, floored at the instrument tick size. -/
def get_execution_price (env : ExecEnv) (o : Order)
    (market_impact slippage : ℚ) : ℚ :=
  let base_price := env.base_price
  let p :=
    if o.side = Side.BUY then base_price + market_impact + slippage
    else base_price - market_impact - slippage
  qmax p env.tick_size

/-- `_execute_order`: choose the fill quantity (possibly a partial fill),
price the fill, then apply it to the order — the source *adds the chosen
quantity to `filled_quantity` without clamping to the remaining quantity*
and *overwrites `avg_fill_price` with this fill's execution price*.
Returns the updated order, the execution price and the fee. -/
def execute_order (cfg : Config) (env : ExecEnv) (o : Order) :
    Order × ℚ × ℚ :=
  let fill_qty :=
    if env.has_order_book ∧ cfg.enable_partial_fills then
      let r := check_liquidity env o
      if r.1 = false then
        if env.partial_draw then r.2 else o.quantity
      else o.quantity
    else o.quantity
  let market_impact := if cfg.enable_market_impact then env.impact else 0
  let slippage := if cfg.enable_slippage then env.slippage else 0
  let execution_price :=
    if env.has_order_book then get_execution_price env o market_impact slippage
    else
      if o.side = Side.BUY then env.base_price + market_impact + slippage
      else env.base_price - market_impact - slippage
  let fee := if cfg.enable_fees then execution_price * fill_qty * env.taker_fee else 0
  let o := { o with filled_quantity := o.filled_quantity + fill_qty,
                    avg_fill_price := execution_price }
  let o :=
    if o.filled_quantity ≥ o.quantity then { o with status := OrderStatus.FILLED }
    else { o with status := OrderStatus.PARTIALLY_FILLED }
  (o, execution_price, fee)

end BTE

/-! ## Theorems

The rational arithmetic of the Lean core library is sealed `irreducible`;
it is made semireducible for this section so that concrete runs of the
embedded code evaluate inside `decide`. -/

section Theorems

attribute [local semireducible] Rat.mul Rat.add Rat.sub Rat.inv

/-- C7: starting from an empty book, `update_bid(100.00, 10)`,
`update_bid(99.50, 20)`, `update_ask(100.50, 15)`, `update_ask(101.00, 25)`
yield `best_bid = 100.00`, `best_ask = 100.50`, `mid = 100.25`,
`spread = 0.50`, microprice `(15·100.00 + 10·100.50)/25 = 100.20` and
imbalance `(30 − 40)/70 = −1/7`, with the microprice computed as
`(ask_size·bid_price + bid_size·ask_price)/(bid_size + ask_size)` over the
top of book. -/
theorem c7_orderbook_scenario_metrics :
    let b : MDOB.Book := MDOB.update_ask (MDOB.update_ask (MDOB.update_bid
      (MDOB.update_bid {} 100 10) (199/2) 20) (201/2) 15) 101 25
    (MDOB.best_bid b).map (fun l => l.price) = some 100 ∧
    (MDOB.best_ask b).map (fun l => l.price) = some (201/2) ∧
    MDOB.mid_price b = 401/4 ∧
    MDOB.spread b = 1/2 ∧
    HSOB.get_microprice (MDOB.toHSOB b) = some ((15 * 100 + 10 * (201/2)) / 25) ∧
    HSOB.get_microprice (MDOB.toHSOB b) = some (501/5) ∧
    HSOB.get_order_book_imbalance (MDOB.toHSOB b) = (30 - 40) / 70 := by
  decide

/-- C2: on two trade ticks at 75 s (price 10, size 1) and 99 s (price 20,
size 3) with a one-minute interval, `query_ohlcv` produces a single bar
whose edge is the floored timestamp 60, but whose `vwap` field is
`(O+H+L+C)/4 = 15`, not the size-weighted mean trade price
`(10·1 + 20·3)/4 = 17.5` that the specification prescribes. -/
theorem c2_ohlcv_vwap_code_bug :
    TSDB.query_ohlcv [⟨75, 10, 1⟩, ⟨99, 20, 3⟩] 60 =
      [{ timestamp := 60, open_p := 10, high := 20, low := 10, close := 20,
         volume := 4, num_trades := 2, vwap := 15 }] ∧
    TSDB.floor_timestamp 75 60 = 60 ∧
    TSDB.floor_timestamp 99 60 = 60 ∧
    TSDB.specVWAP [⟨75, 10, 1⟩, ⟨99, 20, 3⟩] = 35/2 ∧
    (15 : ℚ) ≠ 35/2 := by
  decide

/-- C1: `_execute_order` applied to a BUY order of quantity 100 — first
against a book with ask liquidity 40 (partial-fill draw true, base price
50), then against restored liquidity 100 (base price 51), with impact,
slippage and fees disabled — leaves `filled_quantity = 140 > 100` (the
second execution adds the full original quantity, not the remainder) and
`avg_fill_price = 51`, the last execution price rather than the
size-weighted mean `(40·50 + 100·51)/140 = 355/7` of the applied fills. -/
theorem c1_fill_accumulation_code_bug :
    let cfg : BTE.Config :=
      { enable_market_impact := false, enable_slippage := false,
        enable_fees := false }
    let o1 := (BTE.execute_order cfg
      { base_price := 50, avail_liquidity := 40, partial_draw := true }
      { quantity := 100, side := Side.BUY }).1
    let o2 := (BTE.execute_order cfg
      { base_price := 51, avail_liquidity := 100 } o1).1
    o1.filled_quantity = 40 ∧ o1.avg_fill_price = 50 ∧
    o1.status = BTE.OrderStatus.PARTIALLY_FILLED ∧
    o2.filled_quantity = 140 ∧ ¬(o2.filled_quantity ≤ o2.quantity) ∧
    o2.avg_fill_price = 51 ∧
    o2.avg_fill_price ≠ (40 * 50 + 100 * 51) / 140 := by
  decide

/-- C3 counterexample: the snapshot with a 101-bid and a 100-ask is crossed,
yet `update_snapshot` applies it without any error — both sides are stored
and the resulting book has `best_bid = 101 > 100 = best_ask`; no
`BookCrossed` rejection exists anywhere in the order-book code. -/
theorem c3_crossed_snapshot_accepted :
    let b := HSOB.update_snapshot {}
      { bids := [⟨101, 5⟩], asks := [⟨100, 5⟩] }
    b.bids ≠ [] ∧ b.asks ≠ [] ∧
    HSOB.best_bid b = some 101 ∧ HSOB.best_ask b = some 100 ∧
    ¬((101 : ℚ) < 100) := by
  decide

/-- Keys of an upserted association list are old keys or the inserted key. -/
theorem upsertQ_fst_subset (m : List (ℚ × ℚ)) (k v x : ℚ)
    (hx : x ∈ (HSOB.upsertQ m k v).map Prod.fst) :
    x ∈ m.map Prod.fst ∨ x = k := by
  unfold HSOB.upsertQ at hx
  split at hx
  · rw [List.map_map] at hx
    rcases List.mem_map.1 hx with ⟨pr, hpr, hval⟩
    by_cases hpk : (pr.1 == k) = true
    · right
      simp only [Function.comp, hpk, if_true] at hval
      exact hval.symm
    · left
      simp only [Function.comp, hpk, if_false, Bool.false_eq_true] at hval
      exact hval ▸ List.mem_map.2 ⟨pr, hpr, rfl⟩
  · rw [List.map_append] at hx
    rcases List.mem_append.1 hx with h | h
    · exact Or.inl h
    · right
      simpa using h

/-- Every key of the side built by `update_snapshot`'s fold is the price of
one of the folded levels (or was already in the accumulator). -/
theorem snapshot_fold_fst (levels : List HSOB.Level) :
    ∀ (acc : List (ℚ × ℚ)) (x : ℚ),
      x ∈ (levels.foldl (fun m l => HSOB.upsertQ m l.price l.size) acc).map Prod.fst →
      x ∈ acc.map Prod.fst ∨ ∃ l ∈ levels, l.price = x := by
  induction levels with
  | nil =>
    intro acc x hx
    exact Or.inl hx
  | cons l rest ih =>
    intro acc x hx
    rcases ih (HSOB.upsertQ acc l.price l.size) x hx with h | ⟨l', hl', hpx⟩
    · rcases upsertQ_fst_subset acc l.price l.size x h with h' | h'
      · exact Or.inl h'
      · exact Or.inr ⟨l, List.mem_cons_self l rest, h'.symm⟩
    · exact Or.inr ⟨l', List.mem_cons_of_mem l hl', hpx⟩

/-- `maxQ?` returns an element of the list. -/
theorem maxQ?_mem : ∀ {xs : List ℚ} {m : ℚ}, HSOB.maxQ? xs = some m → m ∈ xs := by
  intro xs
  induction xs with
  | nil =>
    intro m h
    simp [HSOB.maxQ?] at h
  | cons x xs ih =>
    intro m h
    unfold HSOB.maxQ? at h
    cases hxs : HSOB.maxQ? xs with
    | none =>
      rw [hxs] at h
      exact (Option.some.inj h) ▸ List.mem_cons_self x xs
    | some m' =>
      rw [hxs] at h
      have hm : qmax x m' = m := Option.some.inj h
      unfold qmax at hm
      split at hm
      · exact hm ▸ List.mem_cons_of_mem x (ih hxs)
      · exact hm ▸ List.mem_cons_self x xs

/-- `minQ?` returns an element of the list. -/
theorem minQ?_mem : ∀ {xs : List ℚ} {m : ℚ}, HSOB.minQ? xs = some m → m ∈ xs := by
  intro xs
  induction xs with
  | nil =>
    intro m h
    simp [HSOB.minQ?] at h
  | cons x xs ih =>
    intro m h
    unfold HSOB.minQ? at h
    cases hxs : HSOB.minQ? xs with
    | none =>
      rw [hxs] at h
      exact (Option.some.inj h) ▸ List.mem_cons_self x xs
    | some m' =>
      rw [hxs] at h
      have hm : qmin x m' = m := Option.some.inj h
      unfold qmin at hm
      split at hm
      · exact hm ▸ List.mem_cons_self x xs
      · exact hm ▸ List.mem_cons_of_mem x (ih hxs)

/-- C3 (amended): the order book performs no crossing validation — a crossed
snapshot is applied, not rejected (see the counterexample) — but a snapshot
replacement whose positive-size bid prices all lie strictly below its
positive-size ask prices does yield an uncrossed book: when both sides are
non-empty afterwards, `best_bid < best_ask`. -/
theorem c3_uncrossed_snapshot_uncrossed_book (b : HSOB.Book)
    (snap : HSOB.Snapshot)
    (h : ∀ lb ∈ snap.bids, ∀ la ∈ snap.asks,
        0 < lb.size → 0 < la.size → lb.price < la.price)
    (p q : ℚ)
    (hp : HSOB.best_bid (HSOB.update_snapshot b snap) = some p)
    (hq : HSOB.best_ask (HSOB.update_snapshot b snap) = some q) :
    p < q := by
  simp only [HSOB.best_bid, HSOB.best_ask, HSOB.update_snapshot] at hp hq
  have hp' := maxQ?_mem hp
  have hq' := minQ?_mem hq
  rcases snapshot_fold_fst _ [] p hp' with h0 | ⟨lb, hlb, hpb⟩
  · simp at h0
  rcases snapshot_fold_fst _ [] q hq' with h0 | ⟨la, hla, hqa⟩
  · simp at h0
  have hlb' := List.mem_filter.1 hlb
  have hla' := List.mem_filter.1 hla
  exact hpb ▸ hqa ▸
    h lb hlb'.1 la hla'.1 (of_decide_eq_true hlb'.2) (of_decide_eq_true hla'.2)

/-- C3 witness: a concrete uncrossed snapshot (bid 100×10, ask 101×5) is
applied and the resulting book satisfies `best_bid = 100 < 101 = best_ask`. -/
theorem c3_uncrossed_witness :
    (100 : ℚ) < 101 ∧
    HSOB.best_bid (HSOB.update_snapshot {} ⟨[⟨100, 10⟩], [⟨101, 5⟩], 0⟩)
      = some 100 ∧
    HSOB.best_ask (HSOB.update_snapshot {} ⟨[⟨100, 10⟩], [⟨101, 5⟩], 0⟩)
      = some 101 :=
  ⟨c3_uncrossed_snapshot_uncrossed_book {} ⟨[⟨100, 10⟩], [⟨101, 5⟩], 0⟩
      (by
        intro lb hlb la hla _ _
        simp only [List.mem_singleton] at hlb hla
        subst hlb
        subst hla
        decide)
      100 101 (by decide) (by decide),
   by decide, by decide⟩

/-- A halted manager rejects immediately and is left untouched. -/
theorem pre_trade_check_halted (now : ℚ) (s : HTS.RMState) (o : HTS.Order)
    (h : s.is_trading_halted = true) :
    HTS.pre_trade_check now s o = ((false, HTS.Reason.tradingHalted), s) := by
  simp [HTS.pre_trade_check, h]

/-- One non-reset operation keeps the circuit breaker tripped. -/
theorem runOp_keeps_halt (s : HTS.RMState) (op : HTS.RMOp)
    (h : s.is_trading_halted = true) (hop : op.isReset = false) :
    (HTS.runOp s op).is_trading_halted = true := by
  cases op with
  | preCheck now o =>
    show (HTS.pre_trade_check now s o).2.is_trading_halted = true
    rw [pre_trade_check_halted now s o h]
    exact h
  | onFill f =>
    simpa [HTS.runOp, HTS.on_fill, HTS.recalculate_exposure] using h
  | updRef symbol price =>
    simpa [HTS.runOp, HTS.update_reference_price] using h
  | resetDaily =>
    simp [HTS.RMOp.isReset] at hop

/-- C4: once the circuit breaker has tripped, any sequence of further
operations that does not contain the explicit daily reset leaves it tripped,
every subsequent pre-trade check rejects every order (with the halt reason)
while leaving the state unchanged, and the halt ends only through the
explicit reset. -/
theorem c4_circuit_breaker_latched (s : HTS.RMState) (ops : List HTS.RMOp)
    (hhalt : s.is_trading_halted = true)
    (hops : ∀ op ∈ ops, op.isReset = false) :
    (HTS.runOps s ops).is_trading_halted = true ∧
    (∀ now o, HTS.pre_trade_check now (HTS.runOps s ops) o =
      ((false, HTS.Reason.tradingHalted), HTS.runOps s ops)) ∧
    (HTS.reset_daily_metrics (HTS.runOps s ops)).is_trading_halted = false := by
  have key : ∀ (l : List HTS.RMOp) (t : HTS.RMState),
      t.is_trading_halted = true → (∀ op ∈ l, op.isReset = false) →
      (HTS.runOps t l).is_trading_halted = true := by
    intro l
    induction l with
    | nil =>
      intro t h _
      exact h
    | cons op rest ih =>
      intro t h hl
      have hstep := runOp_keeps_halt t op h (hl op (List.mem_cons_self op rest))
      exact ih (HTS.runOp t op) hstep
        (fun o ho => hl o (List.mem_cons_of_mem op ho))
  have h1 := key ops s hhalt hops
  refine ⟨h1, fun now o => pre_trade_check_halted now _ o h1, ?_⟩
  simp [HTS.reset_daily_metrics]

/-- C4 witness: a concretely halted manager stays halted across a
reference-price update, a fill and a pre-trade check, and the next check
rejects with the halt reason. -/
theorem c4_witness :
    (HTS.runOps
      { limits := {}, initial_capital := 100, current_capital := 100,
        metrics := {}, is_trading_halted := true }
      [HTS.RMOp.updRef "A" 5, HTS.RMOp.onFill ⟨"f1", "A", Side.SELL, 200, 7⟩,
       HTS.RMOp.preCheck 3
         { order_id := "z", symbol := "A", side := Side.BUY, quantity := 200,
           price := none }]).is_trading_halted = true ∧
    (HTS.pre_trade_check 9
      (HTS.runOps
        { limits := {}, initial_capital := 100, current_capital := 100,
          metrics := {}, is_trading_halted := true }
        [HTS.RMOp.updRef "A" 5, HTS.RMOp.onFill ⟨"f1", "A", Side.SELL, 200, 7⟩,
         HTS.RMOp.preCheck 3
           { order_id := "z", symbol := "A", side := Side.BUY, quantity := 200,
             price := none }])
      { order_id := "z2", symbol := "A", side := Side.BUY, quantity := 150,
        price := none }).1 = (false, HTS.Reason.tradingHalted) := by
  have h := c4_circuit_breaker_latched
    { limits := {}, initial_capital := 100, current_capital := 100,
      metrics := {}, is_trading_halted := true }
    [HTS.RMOp.updRef "A" 5, HTS.RMOp.onFill ⟨"f1", "A", Side.SELL, 200, 7⟩,
     HTS.RMOp.preCheck 3
       { order_id := "z", symbol := "A", side := Side.BUY, quantity := 200,
         price := none }]
    rfl (by decide)
  exact ⟨h.1, by rw [h.2.1 9 _]⟩

/-- The rate-limit check touches only the per-second window. -/
theorem check_rate_limits_core (now : ℚ) (s : HTS.RMState) :
    HTS.core_state (HTS.check_rate_limits now s).2 = HTS.core_state s := by
  simp only [HTS.check_rate_limits]
  split_ifs <;> rfl

set_option maxHeartbeats 1000000 in
/-- The manager state left behind by `pre_trade_check` is the input state,
possibly with the breaker tripped and/or the per-second rate window
advanced — plus the pending-order insertion exactly when the order was
approved. -/
theorem pre_trade_check_state_cases (now : ℚ) (s : HTS.RMState)
    (o : HTS.Order) :
    (HTS.pre_trade_check now s o).2 = s ∨
    (HTS.pre_trade_check now s o).2 = HTS.trigger_circuit_breaker s ∨
    (HTS.pre_trade_check now s o).2 = (HTS.check_rate_limits now s).2 ∨
    (HTS.pre_trade_check now s o).2 =
      HTS.trigger_circuit_breaker (HTS.check_rate_limits now s).2 ∨
    ((HTS.pre_trade_check now s o).1.1 = true ∧
      (HTS.pre_trade_check now s o).2 =
        HTS.add_pending (HTS.check_rate_limits now s).2 o) := by
  simp only [HTS.pre_trade_check]
  split_ifs <;> simp

/-- C5 (amended): whenever any pre-trade check rejects an order, the verdict
and the specific reason are returned synchronously, the submitting engine
stamps the order REJECTED, and the gate's positions, daily counters and
pending-order table are unchanged.  (Not preserved in general — and excluded
from `core_state` — are the per-second rate counters, which the rate-limit
check resets/increments before a later check can reject, and the breaker
flag, which a daily-loss or drawdown rejection trips; see the
counterexample.) -/
theorem c5_rejection_preserves_core_state (now : ℚ) (s : HTS.RMState)
    (o : HTS.Order)
    (h : (HTS.pre_trade_check now s o).1.1 = false) :
    HTS.core_state (HTS.pre_trade_check now s o).2 = HTS.core_state s ∧
    (HTS.submit_order now s o).2.1.status = HTS.OrderStatus.REJECTED := by
  constructor
  · rcases pre_trade_check_state_cases now s o with hst | hst | hst | hst | hap
    · rw [hst]
    · rw [hst]
      rfl
    · rw [hst]
      exact check_rate_limits_core now s
    · rw [hst]
      exact check_rate_limits_core now s
    · rw [hap.1] at h
      exact Bool.noConfusion h
  · simp [HTS.submit_order, h]

/-- C5 counterexample: a concrete order that passes the first six checks and
is rejected by the concentration check nevertheless leaves the gate with its
per-second order counter incremented from 0 to 1 — the state after the
rejected check does not equal the state before it. -/
theorem c5_rejection_mutates_rate_counter :
    (HTS.pre_trade_check 0
      { limits := { min_order_size := 1 }, initial_capital := 1000000,
        current_capital := 1000000,
        metrics := { total_exposure := 1000, daily_high_equity := 1000000 },
        reference_prices := [("A", 100)] }
      { order_id := "o1", symbol := "A", side := Side.BUY, quantity := 10,
        price := some 100 }).1 = (false, HTS.Reason.concentration) ∧
    ({ limits := { min_order_size := 1 }, initial_capital := 1000000,
       current_capital := 1000000,
       metrics := { total_exposure := 1000, daily_high_equity := 1000000 },
       reference_prices := [("A", 100)] } : HTS.RMState).metrics.orders_this_second
      = 0 ∧
    (HTS.pre_trade_check 0
      { limits := { min_order_size := 1 }, initial_capital := 1000000,
        current_capital := 1000000,
        metrics := { total_exposure := 1000, daily_high_equity := 1000000 },
        reference_prices := [("A", 100)] }
      { order_id := "o1", symbol := "A", side := Side.BUY, quantity := 10,
        price := some 100 }).2.metrics.orders_this_second = 1 := by
  decide

/-- C5 witness: an order-size rejection on a concrete state, with the core
state preserved and the order stamped REJECTED. -/
theorem c5_witness :
    (HTS.pre_trade_check 7
      { limits := {}, initial_capital := 500, current_capital := 500,
        metrics := {} }
      { order_id := "w", symbol := "B", side := Side.SELL, quantity := 5,
        price := some 10 }).1.1 = false ∧
    HTS.core_state (HTS.pre_trade_check 7
      { limits := {}, initial_capital := 500, current_capital := 500,
        metrics := {} }
      { order_id := "w", symbol := "B", side := Side.SELL, quantity := 5,
        price := some 10 }).2 =
      HTS.core_state
        { limits := {}, initial_capital := 500, current_capital := 500,
          metrics := {} } ∧
    (HTS.submit_order 7
      { limits := {}, initial_capital := 500, current_capital := 500,
        metrics := {} }
      { order_id := "w", symbol := "B", side := Side.SELL, quantity := 5,
        price := some 10 }).2.1.status = HTS.OrderStatus.REJECTED := by
  have h := c5_rejection_preserves_core_state 7
    { limits := {}, initial_capital := 500, current_capital := 500,
      metrics := {} }
    { order_id := "w", symbol := "B", side := Side.SELL, quantity := 5,
      price := some 10 }
    (by decide)
  exact ⟨by decide, h.1, h.2⟩

/-- C6: for every order with a limit price and a known reference price for
its symbol on an unhalted gate, when `|price − reference|/reference` exceeds
`max_price_deviation` the fat-finger check rejects it — `pre_trade_check`
returns the fat-finger rejection and the submitting engine stamps the order
REJECTED. -/
theorem c6_fat_finger_rejection (now : ℚ) (s : HTS.RMState) (o : HTS.Order)
    (p ref : ℚ)
    (hhalt : s.is_trading_halted = false)
    (hp : o.price = some p)
    (href : HTS.lookupS s.reference_prices o.symbol = some ref)
    (hdev : |p - ref| / ref > s.limits.max_price_deviation) :
    (HTS.pre_trade_check now s o).1 = (false, HTS.Reason.fatFinger) ∧
    (HTS.submit_order now s o).2.1.status = HTS.OrderStatus.REJECTED := by
  have hff : HTS.check_fat_finger s o = false := by
    simp only [HTS.check_fat_finger, hp, href]
    rw [if_pos hdev]
  have h1 : (HTS.pre_trade_check now s o).1 = (false, HTS.Reason.fatFinger) := by
    simp [HTS.pre_trade_check, hhalt, hff]
  have h2 : (HTS.pre_trade_check now s o).1.1 = false := by rw [h1]
  exact ⟨h1, by simp [HTS.submit_order, h2]⟩

/-- C6 witness: reference price 150.00, `max_price_deviation = 0.05`
(default limits), LIMIT BUY 10 @ 160.00 — rejected by the fat-finger check
and stamped REJECTED. -/
theorem c6_witness :
    (HTS.pre_trade_check 0
      { limits := {}, initial_capital := 1000000, current_capital := 1000000,
        metrics := { daily_high_equity := 1000000 },
        reference_prices := [("AAPL", 150)] }
      { order_id := "o2", symbol := "AAPL", side := Side.BUY, quantity := 10,
        price := some 160 }).1 = (false, HTS.Reason.fatFinger) ∧
    (HTS.submit_order 0
      { limits := {}, initial_capital := 1000000, current_capital := 1000000,
        metrics := { daily_high_equity := 1000000 },
        reference_prices := [("AAPL", 150)] }
      { order_id := "o2", symbol := "AAPL", side := Side.BUY, quantity := 10,
        price := some 160 }).2.1.status = HTS.OrderStatus.REJECTED :=
  c6_fat_finger_rejection 0
    { limits := {}, initial_capital := 1000000, current_capital := 1000000,
      metrics := { daily_high_equity := 1000000 },
      reference_prices := [("AAPL", 150)] }
    { order_id := "o2", symbol := "AAPL", side := Side.BUY, quantity := 10,
      price := some 160 }
    160 150 rfl rfl (by decide) (by decide)

/-- C10 (amended): the daily-volume, total-exposure and concentration checks
compute a market order's notional as `quantity × 0 = 0`, so none of them
can reject a market order on account of its size: with the pre-existing
daily volume, trade count and total exposure within their limits (and a
non-negative concentration limit), a market order of any quantity passes
the daily-volume check, the total-exposure clause adds nothing (so the
position-limits check can only fail on the position-size clause), and the
concentration check passes.  (Without those provisos a market order can
still be rejected — see the counterexample.) -/
theorem c10_market_order_zero_notional (s : HTS.RMState) (o : HTS.Order)
    (hmkt : o.price = none)
    (hvol : s.metrics.daily_volume ≤ s.limits.max_daily_volume)
    (htr : s.metrics.daily_trades < s.limits.max_trades_per_day)
    (hexp : s.metrics.total_exposure ≤ s.limits.max_total_exposure)
    (hconc : 0 ≤ s.limits.max_position_concentration) :
    o.quantity * (o.price.getD 0) = 0 ∧
    HTS.new_total_exposure s o = s.metrics.total_exposure ∧
    HTS.check_daily_volume s o = true ∧
    (|HTS.position_after s o| ≤ s.limits.max_position_size →
      HTS.check_position_limits s o = true) ∧
    HTS.check_concentration s o = true := by
  have hnte : HTS.new_total_exposure s o = s.metrics.total_exposure := by
    simp [HTS.new_total_exposure, hmkt]
  refine ⟨by simp [hmkt], hnte, ?_, ?_, ?_⟩
  · simp only [HTS.check_daily_volume, hmkt, Option.getD_none, mul_zero,
      add_zero]
    rw [if_neg (not_lt.mpr hvol), if_neg (not_le.mpr htr)]
  · intro hpos
    simp only [HTS.check_position_limits]
    rw [if_neg (not_lt.mpr hpos), if_neg (by rw [hnte]; exact not_lt.mpr hexp)]
  · by_cases h0 : s.metrics.total_exposure = 0
    · simp [HTS.check_concentration, h0]
    · simp only [HTS.check_concentration, hmkt, Option.getD_none, mul_zero,
        add_zero, abs_zero, zero_add, if_neg h0, zero_div]
      rw [if_neg (not_lt.mpr hconc)]

/-- C10 counterexample: with the daily trade count already at
`max_trades_per_day`, a market order (no limit price, notional 0) is
rejected by the daily-volume check, so "never rejected by any of these
three checks" fails as stated. -/
theorem c10_market_order_rejected_at_trade_cap :
    ({ order_id := "m1", symbol := "A", side := Side.BUY, quantity := 50,
       price := none } : HTS.Order).quantity *
      (({ order_id := "m1", symbol := "A", side := Side.BUY, quantity := 50,
          price := none } : HTS.Order).price.getD 0) = 0 ∧
    HTS.check_daily_volume
      { limits := { max_trades_per_day := 5, min_order_size := 1 },
        initial_capital := 1000000, current_capital := 1000000,
        metrics := { daily_trades := 5, daily_high_equity := 1000000 } }
      { order_id := "m1", symbol := "A", side := Side.BUY, quantity := 50,
        price := none } = false ∧
    (HTS.pre_trade_check 0
      { limits := { max_trades_per_day := 5, min_order_size := 1 },
        initial_capital := 1000000, current_capital := 1000000,
        metrics := { daily_trades := 5, daily_high_equity := 1000000 } }
      { order_id := "m1", symbol := "A", side := Side.BUY, quantity := 50,
        price := none }).1 = (false, HTS.Reason.dailyVolume) := by
  decide

/-- C10 witness: on a state whose counters are within limits, a market
order of quantity 500 passes the daily-volume, exposure and concentration
checks. -/
theorem c10_witness :
    HTS.check_daily_volume
      { limits := { min_order_size := 1 }, initial_capital := 1000000,
        current_capital := 1000000,
        metrics := { total_exposure := 1000, daily_volume := 100,
                     daily_trades := 3, daily_high_equity := 1000000 } }
      { order_id := "m2", symbol := "A", side := Side.BUY, quantity := 500,
        price := none } = true ∧
    HTS.check_concentration
      { limits := { min_order_size := 1 }, initial_capital := 1000000,
        current_capital := 1000000,
        metrics := { total_exposure := 1000, daily_volume := 100,
                     daily_trades := 3, daily_high_equity := 1000000 } }
      { order_id := "m2", symbol := "A", side := Side.BUY, quantity := 500,
        price := none } = true :=
  by
  have h := c10_market_order_zero_notional
    { limits := { min_order_size := 1 }, initial_capital := 1000000,
      current_capital := 1000000,
      metrics := { total_exposure := 1000, daily_volume := 100,
                   daily_trades := 3, daily_high_equity := 1000000 } }
    { order_id := "m2", symbol := "A", side := Side.BUY, quantity := 500,
      price := none }
    rfl (by decide) (by decide) (by decide) (by decide)
  exact ⟨h.2.2.1, h.2.2.2.2⟩

/-- The bookkeeping half of `update_price` does not move the stop. -/
theorem pre_adjust_stop (ts : TStop.TStopRec) (p : ℚ) :
    (TStop.pre_adjust_state ts p).current_stop_price = ts.current_stop_price := by
  simp only [TStop.pre_adjust_state]
  split_ifs <;> rfl

/-- The bookkeeping half of `update_price` does not change the side. -/
theorem pre_adjust_side (ts : TStop.TStopRec) (p : ℚ) :
    (TStop.pre_adjust_state ts p).side = ts.side := by
  simp only [TStop.pre_adjust_state]
  split_ifs <;> rfl

/-- The guarded adjustment does not change the side. -/
theorem adjust_side (ts : TStop.TStopRec) :
    (TStop.adjust_trailing_stop ts).1.side = ts.side := by
  simp only [TStop.adjust_trailing_stop]
  split_ifs <;> rfl

/-- On a long record the guarded adjustment can only raise the stop. -/
theorem adjust_mono_buy (ts : TStop.TStopRec) (h : ts.side = Side.BUY) :
    ts.current_stop_price ≤ (TStop.adjust_trailing_stop ts).1.current_stop_price := by
  simp only [TStop.adjust_trailing_stop, if_pos h]
  split_ifs with hm
  · exact le_of_lt hm
  · exact le_refl _

/-- On a short record the guarded adjustment can only lower the stop. -/
theorem adjust_mono_sell (ts : TStop.TStopRec) (h : ts.side = Side.SELL) :
    (TStop.adjust_trailing_stop ts).1.current_stop_price ≤ ts.current_stop_price := by
  have hb : ¬(ts.side = Side.BUY) := by
    rw [h]
    intro hc
    exact Side.noConfusion hc
  simp only [TStop.adjust_trailing_stop, if_neg hb]
  split_ifs with hm
  · exact le_of_lt hm
  · exact le_refl _

/-- One `update_price` step neither changes the side nor lets the stop
regress (long: non-decreasing, short: non-increasing). -/
theorem update_price_step (ts : TStop.TStopRec) (p : ℚ) :
    (TStop.update_price ts p).1.side = ts.side ∧
    (ts.side = Side.BUY →
      ts.current_stop_price ≤ (TStop.update_price ts p).1.current_stop_price) ∧
    (ts.side = Side.SELL →
      (TStop.update_price ts p).1.current_stop_price ≤ ts.current_stop_price) := by
  simp only [TStop.update_price]
  have hside := pre_adjust_side ts p
  have hstop := pre_adjust_stop ts p
  by_cases hact : (TStop.pre_adjust_state ts p).is_active = true
  · simp only [hact, if_true]
    have hside' := adjust_side (TStop.pre_adjust_state ts p)
    refine ⟨?_, ?_, ?_⟩
    · split_ifs <;> rw [hside', hside]
    · intro hb
      have := adjust_mono_buy (TStop.pre_adjust_state ts p) (by rw [hside, hb])
      rw [hstop] at this
      split_ifs <;> exact this
    · intro hs
      have := adjust_mono_sell (TStop.pre_adjust_state ts p) (by rw [hside, hs])
      rw [hstop] at this
      split_ifs <;> exact this
  · simp only [Bool.not_eq_true] at hact
    simp only [hact, Bool.false_eq_true, if_false]
    exact ⟨hside, fun _ => le_of_eq hstop.symm, fun _ => le_of_eq hstop⟩

/-- C8: for every tracked trailing stop and every sequence of price updates,
`current_stop_price` never regresses — for a long (BUY) record it is
non-decreasing and for a short (SELL) record non-increasing across
`update_price` — and the side itself never changes. -/
theorem c8_trailing_stop_monotone (ts : TStop.TStopRec) (ps : List ℚ) :
    (TStop.run_updates ts ps).side = ts.side ∧
    (ts.side = Side.BUY →
      ts.current_stop_price ≤ (TStop.run_updates ts ps).current_stop_price) ∧
    (ts.side = Side.SELL →
      (TStop.run_updates ts ps).current_stop_price ≤ ts.current_stop_price) := by
  induction ps generalizing ts with
  | nil =>
    exact ⟨rfl, fun _ => le_refl _, fun _ => le_refl _⟩
  | cons p rest ih =>
    have hstep := update_price_step ts p
    have hrest := ih (TStop.update_price ts p).1
    have hrun : TStop.run_updates ts (p :: rest) =
        TStop.run_updates (TStop.update_price ts p).1 rest := rfl
    rw [hrun]
    refine ⟨by rw [hrest.1, hstep.1], ?_, ?_⟩
    · intro hb
      exact le_trans (hstep.2.1 hb)
        (hrest.2.1 (by rw [hstep.1, hb]))
    · intro hs
      exact le_trans (hrest.2.2 (by rw [hstep.1, hs])) (hstep.2.2 hs)

/-- C8 witness: the spec's long scenario — entry 100, two-percent trailing
distance, IMMEDIATE mode, prices 100→102→101→104→103 — ends with the stop
at 101.92, never having regressed from the initial 98. -/
theorem c8_witness :
    (TStop.mk_trailing_stop Side.BUY 100 10 {}).side = Side.BUY ∧
    (TStop.mk_trailing_stop Side.BUY 100 10 {}).current_stop_price ≤
      (TStop.run_updates (TStop.mk_trailing_stop Side.BUY 100 10 {})
        [100, 102, 101, 104, 103]).current_stop_price ∧
    (TStop.mk_trailing_stop Side.BUY 100 10 {}).current_stop_price = 98 ∧
    (TStop.run_updates (TStop.mk_trailing_stop Side.BUY 100 10 {})
      [100, 102, 101, 104, 103]).current_stop_price = 2548/25 :=
  ⟨by decide,
   (c8_trailing_stop_monotone (TStop.mk_trailing_stop Side.BUY 100 10 {})
     [100, 102, 101, 104, 103]).2.1 (by decide),
   by decide, by decide⟩

/-- A `k`-byte little-endian encoding has length `k`. -/
theorem toLE_length (k : ℕ) : ∀ n : ℕ, (TSDB.toLE k n).length = k := by
  induction k with
  | zero =>
    intro n
    rfl
  | succ k ih =>
    intro n
    simp [TSDB.toLE, ih]

/-- Little-endian decoding inverts encoding below `256 ^ k`. -/
theorem fromLE_toLE (k : ℕ) : ∀ n : ℕ, n < 256 ^ k →
    TSDB.fromLE (TSDB.toLE k n) = n := by
  induction k with
  | zero =>
    intro n h
    simp only [pow_zero, Nat.lt_one_iff] at h
    simp [h, TSDB.toLE, TSDB.fromLE]
  | succ k ih =>
    intro n h
    have hdiv : n / 256 < 256 ^ k := by
      rw [Nat.div_lt_iff_lt_mul (by norm_num : 0 < 256)]
      rw [pow_succ] at h
      exact h
    simp only [TSDB.toLE, TSDB.fromLE]
    rw [ih (n / 256) hdiv]
    exact Nat.mod_add_div n 256

/-- C9: serializing a tick record to the 25-byte binary format and
deserializing yields exact equality of all fields — the microsecond
timestamp and the two 64-bit price/quantity patterns (each below `2^64`,
as the `u64`/`f64` slots require) and the BUY/SELL side. -/
theorem c9_tick_round_trip (t : TSDB.TickRec)
    (h1 : t.timestamp_us < 2 ^ 64) (h2 : t.priceBits < 2 ^ 64)
    (h3 : t.qtyBits < 2 ^ 64)
    (hside : t.side = "BUY" ∨ t.side = "SELL") :
    TSDB.deserialize_tick (TSDB.serialize_tick t) = some t := by
  obtain ⟨ts, pb, qb, sd⟩ := t
  simp only at h1 h2 h3 hside
  have e : (2 : ℕ) ^ 64 = 256 ^ 8 := by norm_num
  rw [e] at h1 h2 h3
  have lenA := toLE_length 8 ts
  have lenB := toLE_length 8 pb
  have lenC := toLE_length 8 qb
  have hser : TSDB.serialize_tick ⟨ts, pb, qb, sd⟩ =
      TSDB.toLE 8 ts ++ (TSDB.toLE 8 pb ++ (TSDB.toLE 8 qb ++
        [if sd == "BUY" then 0 else 1])) := by
    simp [TSDB.serialize_tick, List.append_assoc]
  have hlen : (TSDB.serialize_tick ⟨ts, pb, qb, sd⟩).length = 25 := by
    rw [hser]
    simp [lenA, lenB, lenC]
  have hd8 : (TSDB.serialize_tick ⟨ts, pb, qb, sd⟩).drop 8 =
      TSDB.toLE 8 pb ++ (TSDB.toLE 8 qb ++ [if sd == "BUY" then 0 else 1]) := by
    rw [hser]
    exact List.drop_left' lenA
  have hd16 : (TSDB.serialize_tick ⟨ts, pb, qb, sd⟩).drop 16 =
      TSDB.toLE 8 qb ++ [if sd == "BUY" then 0 else 1] := by
    have : (16 : ℕ) = 8 + 8 := by norm_num
    rw [this, ← List.drop_drop, hd8]
    exact List.drop_left' lenB
  have hd24 : (TSDB.serialize_tick ⟨ts, pb, qb, sd⟩).drop 24 =
      [if sd == "BUY" then 0 else 1] := by
    have : (24 : ℕ) = 16 + 8 := by norm_num
    rw [this, ← List.drop_drop, hd16]
    exact List.drop_left' lenC
  have ht8 : (TSDB.serialize_tick ⟨ts, pb, qb, sd⟩).take 8 = TSDB.toLE 8 ts := by
    rw [hser]
    exact List.take_left' lenA
  have htb : ((TSDB.serialize_tick ⟨ts, pb, qb, sd⟩).drop 8).take 8 =
      TSDB.toLE 8 pb := by
    rw [hd8]
    exact List.take_left' lenB
  have htc : ((TSDB.serialize_tick ⟨ts, pb, qb, sd⟩).drop 16).take 8 =
      TSDB.toLE 8 qb := by
    rw [hd16]
    exact List.take_left' lenC
  unfold TSDB.deserialize_tick
  rw [if_pos hlen, ht8, htb, htc, hd24]
  rw [fromLE_toLE 8 ts h1, fromLE_toLE 8 pb h2, fromLE_toLE 8 qb h3]
  rcases hside with hsd | hsd <;> subst hsd <;> simp

/-- C9 witness: a concrete 25-byte record round-trips exactly. -/
theorem c9_witness :
    TSDB.deserialize_tick
      (TSDB.serialize_tick ⟨1700000000123456, 46412408909823, 42, "BUY"⟩)
      = some ⟨1700000000123456, 46412408909823, 42, "BUY"⟩ :=
  c9_tick_round_trip ⟨1700000000123456, 46412408909823, 42, "BUY"⟩
    (by norm_num) (by norm_num) (by norm_num) (Or.inl rfl)

end Theorems
